import Mathlib

/-!
Verification of the browser-resident duplex audio streaming client:
a shallow embedding of the audio codec helpers, the playback scheduler
(class AudioPlayer), the connection manager (hook useACEController) and
the capture service (hook useMicrophone), together with proofs settling
the specification claims about them.

Conventions of the embedding:
* byte buffers are lists of natural numbers (each below 256);
* JS numbers used for durations and timestamps are modelled as exact
  rationals, since the code only adds, subtracts, divides and compares
  them (the idealized real-number semantics of the source arithmetic);
* fallible operations return Except;
* stateful handlers are pure functions from a state to a new state plus
  a list of observable actions (callback invocations, log lines, frames
  written to the channel), so that "the error callback is invoked
  exactly once" becomes a count over the action trace;
* platform audio buffers live in an explicit heap (a list of buffers
  addressed by index), because the scheduler captures a reference to the
  channel data of the current buffer before it possibly replaces that
  buffer, and the aliasing is observable.
-/

set_option maxRecDepth 8000

namespace Codec

/-- Reading byte i of a buffer, 0 when out of range. -/
def byteAt (b : List Nat) (i : Nat) : Nat := b.getD i 0

/-- Model of DataView.getUint32 with littleEndian = true. -/
def readU32LE (b : List Nat) (off : Nat) : Nat :=
  byteAt b off + 256 * byteAt b (off + 1) + 65536 * byteAt b (off + 2)
    + 16777216 * byteAt b (off + 3)

/-- Model of String.fromCharCode applied to four consecutive bytes. -/
def fromCharCode4 (b : List Nat) (i : Nat) : String :=
  String.mk [Char.ofNat (byteAt b i), Char.ofNat (byteAt b (i + 1)),
    Char.ofNat (byteAt b (i + 2)), Char.ofNat (byteAt b (i + 3))]

/-- Embedding of extractWavSampleRate
(src/web-ui/src/utils/extractWavSampleRate.ts): validate the RIFF and
WAVE markers, then return the little-endian 32-bit word at byte
offset 24. The thrown `new Error("Invalid WAV file")` becomes the
error branch of Except. -/
def extractWavSampleRate (b : List Nat) : Except String Nat :=
  let riff := fromCharCode4 b 0
  let wave := fromCharCode4 b 8
  if riff ≠ "RIFF" ∨ wave ≠ "WAVE" then
    Except.error "Invalid WAV file"
  else
    Except.ok (readU32LE b 24)

/-- The bytes 0-3 of the buffer spell RIFF. -/
def riffOk (b : List Nat) : Prop :=
  byteAt b 0 = 82 ∧ byteAt b 1 = 73 ∧ byteAt b 2 = 70 ∧ byteAt b 3 = 70

/-- The bytes 8-11 of the buffer spell WAVE. -/
def waveOk (b : List Nat) : Prop :=
  byteAt b 8 = 87 ∧ byteAt b 9 = 65 ∧ byteAt b 10 = 86 ∧ byteAt b 11 = 69

/-- Modelled from the spec: the encoder pcmToWav
(src/web-ui/src/utils/pcmToWav.ts) is not among the provided source
files, only its callers and its test; this definition follows the wire
layout given in section 6 of the spec, each multi-byte field written
little-endian byte by byte. A 44-byte RIFF/WAVE header: bytes 0-3 RIFF,
4-7 total size minus 8, 8-11 WAVE, 12-15 "fmt ", 16-19 the value 16,
20-21 format tag 1 (PCM), 22-23 channel count, 24-27 sample rate,
28-31 byte rate, 32-33 block align, 34-35 bits per sample (16),
36-39 "data", 40-43 payload byte length, followed by the raw PCM bytes
unmodified. -/
def pcmToWav (pcm : List Nat) (sampleRate numChannels : Nat) : List Nat :=
  82 :: 73 :: 70 :: 70 ::
  (36 + pcm.length) % 256 :: (36 + pcm.length) / 256 % 256 ::
    (36 + pcm.length) / 65536 % 256 :: (36 + pcm.length) / 16777216 % 256 ::
  87 :: 65 :: 86 :: 69 ::
  102 :: 109 :: 116 :: 32 ::
  16 :: 0 :: 0 :: 0 ::
  1 :: 0 ::
  numChannels % 256 :: numChannels / 256 % 256 ::
  sampleRate % 256 :: sampleRate / 256 % 256 ::
    sampleRate / 65536 % 256 :: sampleRate / 16777216 % 256 ::
  (sampleRate * numChannels * 2) % 256 ::
    (sampleRate * numChannels * 2) / 256 % 256 ::
    (sampleRate * numChannels * 2) / 65536 % 256 ::
    (sampleRate * numChannels * 2) / 16777216 % 256 ::
  (numChannels * 2) % 256 :: (numChannels * 2) / 256 % 256 ::
  16 :: 0 ::
  100 :: 97 :: 116 :: 97 ::
  pcm.length % 256 :: pcm.length / 256 % 256 ::
    pcm.length / 65536 % 256 :: pcm.length / 16777216 % 256 ::
  pcm

end Codec

namespace Player

/-- Model of a platform AudioBuffer: creation parameters plus the write
log of channel 0 (most recent write first). A write at an index at or
beyond the frame length is silently dropped, which is the semantics of
an out-of-range indexed store on a Float32Array. -/
structure AudioBufferM where
  numChannels : Nat
  length : Nat
  sampleRate : Nat
  writes : List (Nat × Int)
deriving DecidableEq

/-- Store one sample in a buffer; out-of-range stores are dropped. -/
def bufWrite (b : AudioBufferM) (i : Nat) (v : Int) : AudioBufferM :=
  if i < b.length then { b with writes := (i, v) :: b.writes } else b

/-- Read back a sample from the write log, 0 if never written. -/
def bufRead (b : AudioBufferM) (i : Nat) : Int :=
  match b.writes.find? (fun p => p.1 == i) with
  | some p => p.2
  | none => 0

/-- The heap of allocated audio buffers, addressed by index. -/
def heapGet (h : List AudioBufferM) (i : Nat) : AudioBufferM :=
  h.getD i ⟨0, 0, 0, []⟩

/-- Store one sample in the buffer at a heap address. -/
def heapWrite (h : List AudioBufferM) (id i : Nat) (v : Int) :
    List AudioBufferM :=
  h.set id (bufWrite (heapGet h id) i v)

/-- The copy loop of play: for i below data length,
channel[i + off] := data[i], where channel is the heap address
captured at entry of play. -/
def writeSamples (h : List AudioBufferM) (chId off i : Nat) :
    List Int → List AudioBufferM
  | [] => h
  | v :: rest => writeSamples (heapWrite h chId (i + off) v) chId off (i + 1) rest

/-- One decoded PCM chunk handed to play (an AudioBuffer argument in the
source; data is channel 0). -/
structure Chunk where
  sampleRate : Nat
  data : List Int
deriving DecidableEq

/-- Observable actions of the scheduler. -/
inductive PAction where
  | resetEv
  | warnShort
  | startSource
  | armTimer
deriving DecidableEq

/-- State of class AudioPlayer (src/unnamed/part_001): the pending timer
(holding its delay in seconds), the write cursor, the accumulated
sequence duration in seconds, the start timestamp in milliseconds with
0 meaning unset, the heap of allocated buffers, the address of the
current buffer, and the sample rate of the current audio context. -/
structure PlayerState where
  heap : List AudioBufferM
  timerID : Option ℚ
  offset : Nat
  currentAudioSequenceDuration : ℚ
  currentAudioSequenceStartedAt : ℚ
  timeUntilAudioCompleted : ℚ
  audioBufferId : Nat
  ctxSampleRate : Nat
deriving DecidableEq

/-- AUDIO_BUFFER_LENGTH_SEC of the source. -/
def AUDIO_BUFFER_LENGTH_SEC : Nat := 120

/-- INITIAL_SAMPLE_RATE of the source. -/
def INITIAL_SAMPLE_RATE : Nat := 16000

/-- MIN_BUFFER_DURATION_BEFORE_START_SEC of the source. -/
def MIN_BUFFER_DURATION_BEFORE_START_SEC : ℚ := 0.8

/-- createNewAudioBuffer: a mono buffer of 120 seconds at the sample
rate of the current audio context. -/
def createNewAudioBuffer (ctxRate : Nat) : AudioBufferM :=
  ⟨1, ctxRate * AUDIO_BUFFER_LENGTH_SEC, ctxRate, []⟩

/-- The reset method: clear the cursor, the duration accumulator, the
start timestamp and the timer, and allocate a fresh buffer and source
at the current context rate (the fresh buffer gets the next free heap
address). Stopping the already-stopped source only hits the tolerated
try block and has no state effect. -/
def reset (s : PlayerState) : PlayerState :=
  { heap := s.heap ++ [createNewAudioBuffer s.ctxSampleRate]
    timerID := none
    offset := 0
    currentAudioSequenceDuration := 0
    currentAudioSequenceStartedAt := 0
    timeUntilAudioCompleted := 0
    audioBufferId := s.heap.length
    ctxSampleRate := s.ctxSampleRate }

/-- The constructor of AudioPlayer: context at 16000 Hz, one buffer. -/
def initPlayer : PlayerState :=
  { heap := [createNewAudioBuffer INITIAL_SAMPLE_RATE]
    timerID := none
    offset := 0
    currentAudioSequenceDuration := 0
    currentAudioSequenceStartedAt := 0
    timeUntilAudioCompleted := 0
    audioBufferId := 0
    ctxSampleRate := INITIAL_SAMPLE_RATE }

/-- Tail of play shared by both started branches: compute the elapsed
time since the sequence started, derive the remaining play time, and
arm the reset timer with it. -/
def finishPlay (s : PlayerState) (now : ℚ) (acts : List PAction) :
    PlayerState × List PAction :=
  let audioEllapsed : ℚ := (now - s.currentAudioSequenceStartedAt) / 1000
  let t : ℚ := s.currentAudioSequenceDuration - audioEllapsed
  ({ s with timeUntilAudioCompleted := t, timerID := some t },
    acts ++ [PAction.armTimer])

/-- The play method. The heap address of the channel data is captured
at entry, before the sample-rate comparison, exactly as the source
captures channel before possibly replacing the context and the buffer;
the copy loop then stores through that captured address. now is the
value of performance.now at this call, in milliseconds. -/
def play (s0 : PlayerState) (chunk : Chunk) (now : ℚ) :
    PlayerState × List PAction :=
  let chId := s0.audioBufferId
  let withRate : PlayerState × List PAction :=
    if chunk.sampleRate ≠ s0.ctxSampleRate then
      (reset { s0 with ctxSampleRate := chunk.sampleRate }, [PAction.resetEv])
    else (s0, [])
  let s1 := withRate.1
  let s2 := { s1 with
    heap := writeSamples s1.heap chId s1.offset 0 chunk.data
    offset := s1.offset + chunk.data.length
    timerID := none }
  let chunkDuration : ℚ := (chunk.data.length : ℚ) / (s2.ctxSampleRate : ℚ)
  let s3 := { s2 with
    currentAudioSequenceDuration :=
      s2.currentAudioSequenceDuration + chunkDuration }
  if s3.currentAudioSequenceStartedAt = 0 then
    if s3.currentAudioSequenceDuration < MIN_BUFFER_DURATION_BEFORE_START_SEC then
      (s3, withRate.2 ++ [PAction.warnShort])
    else
      finishPlay { s3 with currentAudioSequenceStartedAt := now } now
        (withRate.2 ++ [PAction.startSource])
  else
    finishPlay s3 now withRate.2

/-- The interrupt method: clear the timer and reset immediately. -/
def interrupt (s : PlayerState) : PlayerState :=
  reset { s with timerID := none }

/-- A run of consecutive play calls, each with its own timestamp,
accumulating the action trace. -/
def playRun (s : PlayerState) : List (Chunk × ℚ) → PlayerState × List PAction
  | [] => (s, [])
  | (c, t) :: rest =>
    let r := play s c t
    let r2 := playRun r.1 rest
    (r2.1, r.2 ++ r2.2)

/-- Recognizer for the start action of the output source. -/
def isStartSource : PAction → Bool
  | PAction.startSource => true
  | _ => false

/-- How many times the output source was started in a trace. -/
def startCount (acts : List PAction) : Nat := acts.countP isStartSource

/-- Cumulative duration in seconds of a run of chunks at a fixed rate. -/
def cumDur (rate : Nat) (run : List (Chunk × ℚ)) : ℚ :=
  (run.map (fun p => (p.1.data.length : ℚ) / (rate : ℚ))).sum

/-- A state as left by the constructor, by reset or by interrupt, as far
as the start logic observes it. -/
def isResetState (s : PlayerState) : Prop :=
  s.currentAudioSequenceStartedAt = 0 ∧ s.currentAudioSequenceDuration = 0

/-- Capacity in samples of the buffer the state currently appends to. -/
def capacityOf (s : PlayerState) : Nat :=
  (heapGet s.heap s.audioBufferId).length

end Player

namespace ACE

/-- The connection status of the hook useACEController. -/
inductive ConnectionStatus where
  | disconnected
  | connecting
  | connected
deriving DecidableEq

/-- The readyState of the underlying WebSocket. -/
inductive ReadyState where
  | rsConnecting
  | rsOpen
  | rsClosing
  | rsClosed
deriving DecidableEq

/-- The WebSocket object as far as the hook observes it. -/
structure WSock where
  readyState : ReadyState
deriving DecidableEq

/-- State of the hook: the websocketRef content (none models a null
ref) and the connection status. -/
structure CState where
  websocket : Option WSock
  connectionStatus : ConnectionStatus
deriving DecidableEq

/-- Observable actions of the connection manager handlers. -/
inductive Action where
  | setStatus (st : ConnectionStatus)
  | errorCallback (msg : String)
  | wsClose (code : Nat)
  | setWsNull
  | createWs
  | warn (msg : String)
  | send (frame : List Nat)
  | callTTS (payload : Option String)
  | callASR (payload : Option String)
  | callAudioChunk
deriving DecidableEq

/-- Effect of one action on the hook state. -/
def applyAction (s : CState) : Action → CState
  | Action.setStatus st => { s with connectionStatus := st }
  | Action.setWsNull => { s with websocket := none }
  | Action.createWs => { s with websocket := some ⟨ReadyState.rsConnecting⟩ }
  | _ => s

/-- Fold a list of actions over the state. -/
def applyActs (s : CState) (acts : List Action) : CState :=
  acts.foldl applyAction s

/-- The platform updates the readyState of the live socket before it
dispatches a lifecycle event to the handlers. -/
def setReadyState (s : CState) (rs : ReadyState) : CState :=
  match s.websocket with
  | some _ => { s with websocket := some ⟨rs⟩ }
  | none => s

/-- The internal onError helper of the hook: set the status to
disconnected, invoke the error callback of the caller, close the
socket with code 1000 when the ref is non-null, null the ref. -/
def onError (s : CState) (msg : String) : List Action :=
  [Action.setStatus ConnectionStatus.disconnected, Action.errorCallback msg]
    ++ (if s.websocket.isSome then [Action.wsClose 1000] else [])
    ++ [Action.setWsNull]

/-- The onopen handler. -/
def onOpen : List Action := [Action.setStatus ConnectionStatus.connected]

/-- The onclose handler exactly as written in the source: the error
path runs when the close event reports wasClean as true, then the
status is set to disconnected and the ref nulled. -/
def onClose (s : CState) (wasClean : Bool) : List Action :=
  (if wasClean then onError s "Websocket closed unexpectedly" else [])
    ++ [Action.setStatus ConnectionStatus.disconnected, Action.setWsNull]

/-- The connect operation: a no-op when a socket already exists,
otherwise set the status to connecting and create the socket. -/
def connect (s : CState) : List Action :=
  if s.websocket.isSome then []
  else [Action.setStatus ConnectionStatus.connecting, Action.createWs]

/-- The error message interpolated with the endpoint url. -/
def connFailMsg (url : String) : String :=
  "Failed to establish a websocket connection. Is the ACE Controller running at "
    ++ url ++ "?"

/-- A parsed JSON value as far as onMessage inspects it: the type
discriminator and the tts and asr payload fields, each possibly
absent (undefined). -/
structure JsonVal where
  type? : Option String
  tts : Option String
  asr : Option String
deriving DecidableEq

/-- An inbound frame: a binary ArrayBuffer frame, or a text frame
represented by the outcome of JSON.parse on its payload (none when the
payload is not valid JSON and JSON.parse throws). -/
inductive InMsg where
  | binary (bytes : List Nat)
  | text (parsed : Option JsonVal)
deriving DecidableEq

/-- The exception raised by JSON.parse on an invalid payload. -/
def jsonParseError : String := "SyntaxError: JSON.parse"

/-- The handler of a binary audio frame: peek the sample rate with
extractWavSampleRate; any failure inside the try block is caught and
logged and the chunk dropped. The platform decode of a well-formed
container is modelled as succeeding and reaching the audio-chunk
callback. -/
def handleAudioMessage (bytes : List Nat) : List Action :=
  match Codec.extractWavSampleRate bytes with
  | Except.error _ =>
    [Action.warn "Error decoding audio chunk. The chunk was discarded"]
  | Except.ok _ => [Action.callAudioChunk]

/-- The onmessage handler: binary frames go to the audio path; text
frames are parsed as JSON, an exception from JSON.parse propagates out
of the handler; parsed objects are dispatched on the type field, with
the default branch logging and discarding the message. -/
def onMessage (m : InMsg) : Except String (List Action) :=
  match m with
  | InMsg.binary bytes => Except.ok (handleAudioMessage bytes)
  | InMsg.text none => Except.error jsonParseError
  | InMsg.text (some j) =>
    if j.type? = some "tts_update" then Except.ok [Action.callTTS j.tts]
    else if j.type? = some "asr_update" then Except.ok [Action.callASR j.asr]
    else Except.ok [Action.warn "Unrecognized message. Discarded"]

/-- The sendAudioChunk operation: when the optional chain over the ref
does not yield an open readyState, warn and return; otherwise encode
the chunk and send one binary frame. -/
def sendAudioChunk (s : CState) (pcm : List Nat) (sampleRate numChannels : Nat) :
    List Action :=
  if s.websocket.map WSock.readyState ≠ some ReadyState.rsOpen then
    [Action.warn "Websocket is not open. Discarding audio chunk"]
  else
    [Action.send (Codec.pcmToWav pcm sampleRate numChannels)]

/-- The channel lifecycle events and the explicit connect call. -/
inductive Event where
  | connectCall
  | openEvt
  | closeEvt (wasClean : Bool)
  | errorEvt
deriving DecidableEq

/-- Dispatch one event: the platform adjusts the readyState, then the
registered handler runs and its actions are folded into the state. -/
def step (url : String) (s : CState) : Event → CState × List Action
  | Event.connectCall =>
    let acts := connect s
    (applyActs s acts, acts)
  | Event.openEvt =>
    let s1 := setReadyState s ReadyState.rsOpen
    (applyActs s1 onOpen, onOpen)
  | Event.closeEvt wasClean =>
    let s1 := setReadyState s ReadyState.rsClosed
    let acts := onClose s1 wasClean
    (applyActs s1 acts, acts)
  | Event.errorEvt =>
    let acts := onError s (connFailMsg url)
    (applyActs s acts, acts)

/-- A run of events, accumulating the action trace. -/
def runEvents (url : String) (s : CState) : List Event → CState × List Action
  | [] => (s, [])
  | e :: rest =>
    let r := step url s e
    let r2 := runEvents url r.1 rest
    (r2.1, r.2 ++ r2.2)

/-- The state of a fresh client. -/
def initialCState : CState := ⟨none, ConnectionStatus.disconnected⟩

/-- Recognizer for error-callback actions. -/
def isErrCb : Action → Bool
  | Action.errorCallback _ => true
  | _ => false

/-- How many times the error callback of the caller was invoked. -/
def countErrCb (acts : List Action) : Nat := acts.countP isErrCb

/-- Recognizer for channel error events. -/
def isErrorEvt : Event → Bool
  | Event.errorEvt => true
  | _ => false

/-- A fixed endpoint for concrete runs. -/
def testUrl : String := "ws://localhost:1234"

/-- A connected client with an open socket. -/
def sConn : CState := ⟨some ⟨ReadyState.rsOpen⟩, ConnectionStatus.connected⟩

/-- A run with a single channel error event: a first session is closed
cleanly by the server, then a second connection attempt fails. -/
def c4Run : List Event :=
  [Event.connectCall, Event.openEvt, Event.closeEvt true,
    Event.connectCall, Event.errorEvt]

end ACE

namespace Mic

/-- The MicAccessState enum of the hook useMicrophone. -/
inductive MicAccessState where
  | initial
  | loading
  | granted
  | error
deriving DecidableEq

/-- The reducer state of the hook. -/
structure MicrophoneState where
  micAccessState : MicAccessState
  error : Option String
  isRecording : Bool
deriving DecidableEq

/-- The reducer actions. -/
inductive MicrophoneAction where
  | micAccessRequested
  | micAccessGranted
  | micAccessError (payload : String)
  | recordingStarted
  | recordingStopped
deriving DecidableEq

/-- The reducer of the hook, acting exactly on the dispatched fields. -/
def reducer (s : MicrophoneState) : MicrophoneAction → MicrophoneState
  | MicrophoneAction.micAccessRequested =>
    { s with micAccessState := MicAccessState.loading }
  | MicrophoneAction.micAccessGranted =>
    { s with micAccessState := MicAccessState.granted }
  | MicrophoneAction.micAccessError payload =>
    { s with micAccessState := MicAccessState.error, error := some payload }
  | MicrophoneAction.recordingStarted => { s with isRecording := true }
  | MicrophoneAction.recordingStopped => { s with isRecording := false }

/-- INITIAL_STATE of the hook. -/
def INITIAL_STATE : MicrophoneState :=
  ⟨MicAccessState.initial, none, false⟩

/-- Hook-level state: the reducer state plus whether the audio context
ref has been populated. -/
structure MicHookState where
  mic : MicrophoneState
  hasAudioCtx : Bool
deriving DecidableEq

/-- Environment of one capture attempt: whether the browsing context is
secure, whether getUserMedia resolves, whether the worklet module loads
and the capture graph construction succeeds. -/
structure MicEnv where
  isSecureContext : Bool
  getUserMediaOk : Bool
  workletOk : Bool
deriving DecidableEq

/-- Observable effects of the hook operations. -/
inductive MicEffect where
  | getUserMediaCall
  | errorCallback (msg : String)
  | logError
  | addWorklet
  | resumeCtx
  | suspendCtx
deriving DecidableEq

/-- The error thrown before any permission prompt in an insecure
browsing context. -/
def insecureContextMsg : String :=
  "Cannot enable microphone in insecure context"

/-- The rejection of the permission prompt. -/
def getUserMediaErrMsg : String := "getUserMedia rejected"

/-- A failure while building the capture graph. -/
def workletErrMsg : String := "worklet module failed to load"

/-- The requestAccess helper: dispatch the loading transition, then run
the try block; the insecure-context check throws before getUserMedia is
reached; every failure is caught once, logged, surfaced through the
error callback and dispatched as the error transition. -/
def requestAccess (env : MicEnv) (st : MicHookState) :
    MicHookState × List MicEffect :=
  let m1 := reducer st.mic MicrophoneAction.micAccessRequested
  if env.isSecureContext = false then
    (⟨reducer m1 (MicrophoneAction.micAccessError insecureContextMsg),
        st.hasAudioCtx⟩,
      [MicEffect.logError, MicEffect.errorCallback insecureContextMsg])
  else if env.getUserMediaOk = false then
    (⟨reducer m1 (MicrophoneAction.micAccessError getUserMediaErrMsg),
        st.hasAudioCtx⟩,
      [MicEffect.getUserMediaCall, MicEffect.logError,
        MicEffect.errorCallback getUserMediaErrMsg])
  else if env.workletOk = false then
    (⟨reducer m1 (MicrophoneAction.micAccessError workletErrMsg), true⟩,
      [MicEffect.getUserMediaCall, MicEffect.addWorklet, MicEffect.logError,
        MicEffect.errorCallback workletErrMsg])
  else
    (⟨reducer m1 MicrophoneAction.micAccessGranted, true⟩,
      [MicEffect.getUserMediaCall, MicEffect.addWorklet])

/-- The startRecording operation: request access unless already
granted, then resume the audio context through the optional chain and
dispatch the recording transition. -/
def startRecording (env : MicEnv) (st : MicHookState) :
    MicHookState × List MicEffect :=
  let r :=
    if st.mic.micAccessState ≠ MicAccessState.granted then requestAccess env st
    else (st, [])
  (⟨reducer r.1.mic MicrophoneAction.recordingStarted, r.1.hasAudioCtx⟩,
    r.2 ++ (if r.1.hasAudioCtx then [MicEffect.resumeCtx] else []))

/-- The stopRecording operation. -/
def stopRecording (st : MicHookState) : MicHookState × List MicEffect :=
  (⟨reducer st.mic MicrophoneAction.recordingStopped, st.hasAudioCtx⟩,
    if st.hasAudioCtx then [MicEffect.suspendCtx] else [])

/-- Recognizer for error-callback effects. -/
def isErrorCbM : MicEffect → Bool
  | MicEffect.errorCallback _ => true
  | _ => false

end Mic

/-! ## Shared lemmas about the codec -/

theorem byteAt_lt_256 (b : List Nat) (hb : ∀ x ∈ b, x < 256) (i : Nat) :
    Codec.byteAt b i < 256 := by
  unfold Codec.byteAt
  rcases lt_or_ge i b.length with h | h
  · rw [List.getD_eq_getElem?_getD, List.getElem?_eq_getElem h]
    exact hb _ (List.getElem_mem h)
  · rw [List.getD_eq_getElem?_getD, List.getElem?_eq_none h]
    norm_num

theorem charEq256 : ∀ n, n < 256 →
    (((Char.ofNat n = 'R') ↔ n = 82) ∧ ((Char.ofNat n = 'I') ↔ n = 73) ∧
     ((Char.ofNat n = 'F') ↔ n = 70) ∧ ((Char.ofNat n = 'W') ↔ n = 87) ∧
     ((Char.ofNat n = 'A') ↔ n = 65) ∧ ((Char.ofNat n = 'V') ↔ n = 86) ∧
     ((Char.ofNat n = 'E') ↔ n = 69)) := by decide

theorem string_mk4_inj (c1 c2 c3 c4 d1 d2 d3 d4 : Char) :
    (String.mk [c1, c2, c3, c4] = String.mk [d1, d2, d3, d4]) ↔
      (c1 = d1 ∧ c2 = d2 ∧ c3 = d3 ∧ c4 = d4) := by
  constructor
  · intro h
    have h2 : [c1, c2, c3, c4] = [d1, d2, d3, d4] := congrArg String.data h
    simpa using h2
  · rintro ⟨rfl, rfl, rfl, rfl⟩
    rfl

theorem fromCharCode4_riff (b : List Nat) (hb : ∀ x ∈ b, x < 256) :
    (Codec.fromCharCode4 b 0 = "RIFF") ↔ Codec.riffOk b := by
  have h0 := byteAt_lt_256 b hb 0
  have h1 := byteAt_lt_256 b hb 1
  have h2 := byteAt_lt_256 b hb 2
  have h3 := byteAt_lt_256 b hb 3
  unfold Codec.fromCharCode4 Codec.riffOk
  rw [show ("RIFF" : String) = String.mk ['R', 'I', 'F', 'F'] from rfl,
    string_mk4_inj]
  norm_num
  exact and_congr (charEq256 _ h0).1 (and_congr (charEq256 _ h1).2.1
    (and_congr (charEq256 _ h2).2.2.1 (charEq256 _ h3).2.2.1))

theorem fromCharCode4_wave (b : List Nat) (hb : ∀ x ∈ b, x < 256) :
    (Codec.fromCharCode4 b 8 = "WAVE") ↔ Codec.waveOk b := by
  have h0 := byteAt_lt_256 b hb 8
  have h1 := byteAt_lt_256 b hb 9
  have h2 := byteAt_lt_256 b hb 10
  have h3 := byteAt_lt_256 b hb 11
  unfold Codec.fromCharCode4 Codec.waveOk
  rw [show ("WAVE" : String) = String.mk ['W', 'A', 'V', 'E'] from rfl,
    string_mk4_inj]
  norm_num
  exact and_congr (charEq256 _ h0).2.2.2.1 (and_congr (charEq256 _ h1).2.2.2.2.1
    (and_congr (charEq256 _ h2).2.2.2.2.2.1 (charEq256 _ h3).2.2.2.2.2.2))

theorem extractWav_ok_of_markers (b : List Nat) (hb : ∀ x ∈ b, x < 256)
    (hr : Codec.riffOk b) (hw : Codec.waveOk b) :
    Codec.extractWavSampleRate b = Except.ok (Codec.readU32LE b 24) := by
  simp only [Codec.extractWavSampleRate]
  rw [if_neg]
  push_neg
  exact ⟨(fromCharCode4_riff b hb).2 hr, (fromCharCode4_wave b hb).2 hw⟩

theorem extractWav_error_of_no_markers (b : List Nat) (hb : ∀ x ∈ b, x < 256)
    (hc : ¬ (Codec.riffOk b ∧ Codec.waveOk b)) :
    Codec.extractWavSampleRate b = Except.error "Invalid WAV file" := by
  simp only [Codec.extractWavSampleRate]
  rw [if_pos]
  rcases not_and_or.1 hc with h | h
  · exact Or.inl (fun he => h ((fromCharCode4_riff b hb).1 he))
  · exact Or.inr (fun he => h ((fromCharCode4_wave b hb).1 he))

/-! ## Claim theorems about the codec -/

/-- Claim C7: for every byte buffer long enough to contain the header
fields, extractWavSampleRate fails with the invalid-container error if
and only if bytes 0-3 are not RIFF or bytes 8-11 are not WAVE; when
both markers are present it returns the little-endian 32-bit field at
byte offset 24; and the result depends only on the first 28 bytes, so
the PCM payload is never decoded. -/
theorem c7_header_validation (b : List Nat) (hlen : 28 ≤ b.length)
    (hb : ∀ x ∈ b, x < 256) :
    (Codec.extractWavSampleRate b = Except.error "Invalid WAV file" ↔
      ¬ (Codec.riffOk b ∧ Codec.waveOk b))
    ∧ ((Codec.riffOk b ∧ Codec.waveOk b) →
        Codec.extractWavSampleRate b = Except.ok (Codec.readU32LE b 24))
    ∧ (∀ b2 : List Nat,
        (∀ i, i < 28 → Codec.byteAt b i = Codec.byteAt b2 i) →
        Codec.extractWavSampleRate b = Codec.extractWavSampleRate b2) := by
  refine ⟨?_, ?_, ?_⟩
  · constructor
    · intro he hc
      rw [extractWav_ok_of_markers b hb hc.1 hc.2] at he
      exact Except.noConfusion he
    · intro hc
      exact extractWav_error_of_no_markers b hb hc
  · intro hc
    exact extractWav_ok_of_markers b hb hc.1 hc.2
  · intro b2 hag
    simp only [Codec.extractWavSampleRate, Codec.fromCharCode4, Codec.readU32LE,
      Nat.reduceAdd]
    simp only [hag 0 (by norm_num), hag 1 (by norm_num), hag 2 (by norm_num),
      hag 3 (by norm_num), hag 8 (by norm_num), hag 9 (by norm_num),
      hag 10 (by norm_num), hag 11 (by norm_num), hag 24 (by norm_num),
      hag 25 (by norm_num), hag 26 (by norm_num), hag 27 (by norm_num)]

/-- A concrete 28-byte buffer with valid markers and sample rate 16000
in the field at offset 24. -/
def sampleWavHeader : List Nat :=
  [82, 73, 70, 70, 1, 2, 3, 4, 87, 65, 86, 69,
   0, 0, 0, 0, 0, 0, 0, 0, 0, 0, 0, 0, 128, 62, 0, 0]

theorem c7_header_validation_witness :
    (28 ≤ sampleWavHeader.length ∧ ∀ x ∈ sampleWavHeader, x < 256) ∧
    ((Codec.extractWavSampleRate sampleWavHeader =
        Except.error "Invalid WAV file" ↔
        ¬ (Codec.riffOk sampleWavHeader ∧ Codec.waveOk sampleWavHeader))
      ∧ ((Codec.riffOk sampleWavHeader ∧ Codec.waveOk sampleWavHeader) →
          Codec.extractWavSampleRate sampleWavHeader =
            Except.ok (Codec.readU32LE sampleWavHeader 24))
      ∧ (∀ b2 : List Nat,
          (∀ i, i < 28 →
            Codec.byteAt sampleWavHeader i = Codec.byteAt b2 i) →
          Codec.extractWavSampleRate sampleWavHeader =
            Codec.extractWavSampleRate b2)) :=
  ⟨⟨by decide, by decide⟩,
    c7_header_validation sampleWavHeader (by decide) (by decide)⟩

/-- Claim C6: for every valid triple of PCM bytes, positive sample rate
and positive channel count (the rate and the payload length fitting
their 32-bit header fields), decoding the header of the container
produced by the encoder returns exactly the sample rate passed to the
encoder, and the payload-length field at offset 40 holds the byte
length of the input PCM. -/
theorem c6_codec_roundtrip (pcm : List Nat) (sampleRate numChannels : Nat)
    (hsr : 0 < sampleRate) (hsr32 : sampleRate < 4294967296)
    (hch : 0 < numChannels) (hlen : pcm.length < 4294967296) :
    Codec.extractWavSampleRate (Codec.pcmToWav pcm sampleRate numChannels) =
      Except.ok sampleRate
    ∧ Codec.readU32LE (Codec.pcmToWav pcm sampleRate numChannels) 40 =
      pcm.length := by
  constructor
  · have h1 : Codec.extractWavSampleRate
        (Codec.pcmToWav pcm sampleRate numChannels) =
        Except.ok (sampleRate % 256 + 256 * (sampleRate / 256 % 256)
          + 65536 * (sampleRate / 65536 % 256)
          + 16777216 * (sampleRate / 16777216 % 256)) := rfl
    rw [h1]
    congr 1
    omega
  · have h2 : Codec.readU32LE (Codec.pcmToWav pcm sampleRate numChannels) 40 =
        pcm.length % 256 + 256 * (pcm.length / 256 % 256)
          + 65536 * (pcm.length / 65536 % 256)
          + 16777216 * (pcm.length / 16777216 % 256) := rfl
    rw [h2]
    omega

theorem c6_codec_roundtrip_witness :
    (0 < 16000 ∧ 16000 < 4294967296 ∧ 0 < 1 ∧
      ([1, 2] : List Nat).length < 4294967296) ∧
    (Codec.extractWavSampleRate (Codec.pcmToWav [1, 2] 16000 1) =
        Except.ok 16000
      ∧ Codec.readU32LE (Codec.pcmToWav [1, 2] 16000 1) 40 =
        ([1, 2] : List Nat).length) :=
  ⟨by decide,
    c6_codec_roundtrip [1, 2] 16000 1 (by decide) (by decide) (by decide)
      (by decide)⟩

/-! ## Shared lemmas about the playback scheduler -/

theorem bufWrite_length (b : Player.AudioBufferM) (i : Nat) (v : Int) :
    (Player.bufWrite b i v).length = b.length := by
  unfold Player.bufWrite
  split <;> rfl

theorem bufWrite_out_of_range (b : Player.AudioBufferM) (i : Nat) (v : Int)
    (h : b.length ≤ i) : Player.bufWrite b i v = b := by
  unfold Player.bufWrite
  rw [if_neg (not_lt.2 h)]

theorem heapWrite_length_preserved :
    ∀ (h : List Player.AudioBufferM) (id i : Nat) (v : Int) (k : Nat),
      (Player.heapGet (Player.heapWrite h id i v) k).length =
        (Player.heapGet h k).length := by
  intro h
  induction h with
  | nil => intro id i v k; cases id <;> cases k <;> rfl
  | cons hd tl ih =>
    intro id i v k
    cases id with
    | zero =>
      cases k with
      | zero =>
        simpa [Player.heapWrite, Player.heapGet] using bufWrite_length hd i v
      | succ k => rfl
    | succ id =>
      cases k with
      | zero => rfl
      | succ k =>
        simpa [Player.heapWrite, Player.heapGet] using ih id i v k

theorem writeSamples_length_preserved :
    ∀ (data : List Int) (h : List Player.AudioBufferM) (chId off i k : Nat),
      (Player.heapGet (Player.writeSamples h chId off i data) k).length =
        (Player.heapGet h k).length := by
  intro data
  induction data with
  | nil => intro h chId off i k; rfl
  | cons v rest ih =>
    intro h chId off i k
    simp only [Player.writeSamples]
    rw [ih, heapWrite_length_preserved]

theorem capacityOf_def (s : Player.PlayerState) :
    Player.capacityOf s =
      (Player.heapGet s.heap s.audioBufferId).length := rfl

theorem play_same_rate_proj (s : Player.PlayerState) (c : Player.Chunk) (now : ℚ)
    (hrate : c.sampleRate = s.ctxSampleRate) :
    (Player.play s c now).1.ctxSampleRate = s.ctxSampleRate
    ∧ (Player.play s c now).1.currentAudioSequenceDuration =
        s.currentAudioSequenceDuration +
          (c.data.length : ℚ) / (s.ctxSampleRate : ℚ)
    ∧ (Player.play s c now).1.offset = s.offset + c.data.length
    ∧ (Player.play s c now).1.audioBufferId = s.audioBufferId
    ∧ (Player.play s c now).1.heap =
        Player.writeSamples s.heap s.audioBufferId s.offset 0 c.data := by
  simp only [Player.play, Player.finishPlay, hrate]
  norm_num
  split
  · split <;> simp
  · simp

theorem play_same_rate_below_threshold (s : Player.PlayerState)
    (c : Player.Chunk) (now : ℚ) (hrate : c.sampleRate = s.ctxSampleRate)
    (h0 : s.currentAudioSequenceStartedAt = 0)
    (hlt : s.currentAudioSequenceDuration +
        (c.data.length : ℚ) / (s.ctxSampleRate : ℚ) <
      Player.MIN_BUFFER_DURATION_BEFORE_START_SEC) :
    (Player.play s c now).1.currentAudioSequenceStartedAt = 0
    ∧ (Player.play s c now).2 = [Player.PAction.warnShort] := by
  simp only [Player.play, Player.finishPlay, hrate]
  norm_num
  rw [if_pos h0, if_pos hlt]
  simp [h0]

theorem play_same_rate_crossing (s : Player.PlayerState)
    (c : Player.Chunk) (now : ℚ) (hrate : c.sampleRate = s.ctxSampleRate)
    (h0 : s.currentAudioSequenceStartedAt = 0)
    (hge : ¬ (s.currentAudioSequenceDuration +
        (c.data.length : ℚ) / (s.ctxSampleRate : ℚ) <
      Player.MIN_BUFFER_DURATION_BEFORE_START_SEC)) :
    (Player.play s c now).1.currentAudioSequenceStartedAt = now
    ∧ (Player.play s c now).2 =
        [Player.PAction.startSource, Player.PAction.armTimer] := by
  simp only [Player.play, Player.finishPlay, hrate]
  norm_num
  rw [if_pos h0, if_neg hge]
  simp

theorem play_same_rate_started (s : Player.PlayerState)
    (c : Player.Chunk) (now : ℚ) (hrate : c.sampleRate = s.ctxSampleRate)
    (h0 : s.currentAudioSequenceStartedAt ≠ 0) :
    (Player.play s c now).1.currentAudioSequenceStartedAt =
      s.currentAudioSequenceStartedAt
    ∧ (Player.play s c now).2 = [Player.PAction.armTimer] := by
  simp only [Player.play, Player.finishPlay, hrate]
  norm_num
  rw [if_neg h0]
  simp

theorem startCount_append (a b : List Player.PAction) :
    Player.startCount (a ++ b) = Player.startCount a + Player.startCount b :=
  List.countP_append _ _ _

theorem cumDur_nil (r : Nat) : Player.cumDur r [] = 0 := rfl

theorem cumDur_cons (r : Nat) (p : Player.Chunk × ℚ)
    (l : List (Player.Chunk × ℚ)) :
    Player.cumDur r (p :: l) =
      (p.1.data.length : ℚ) / (r : ℚ) + Player.cumDur r l := by
  simp [Player.cumDur]

theorem cumDur_nonneg (r : Nat) (l : List (Player.Chunk × ℚ)) :
    0 ≤ Player.cumDur r l := by
  unfold Player.cumDur
  apply List.sum_nonneg
  intro x hx
  rcases List.mem_map.1 hx with ⟨p, _, rfl⟩
  positivity

theorem playRun_startCount_aux (rate0 : Nat) (run : List (Player.Chunk × ℚ)) :
    ∀ s : Player.PlayerState, s.ctxSampleRate = rate0 →
    (∀ p ∈ run, p.1.sampleRate = rate0) → (∀ p ∈ run, 0 < p.2) →
    ((s.currentAudioSequenceStartedAt ≠ 0 →
        Player.startCount (Player.playRun s run).2 = 0)
      ∧ (s.currentAudioSequenceStartedAt = 0 →
          s.currentAudioSequenceDuration <
            Player.MIN_BUFFER_DURATION_BEFORE_START_SEC →
          Player.startCount (Player.playRun s run).2 =
            if s.currentAudioSequenceDuration + Player.cumDur rate0 run <
                Player.MIN_BUFFER_DURATION_BEFORE_START_SEC
            then 0 else 1)) := by
  induction run with
  | nil =>
    intro s _ _ _
    constructor
    · intro _
      rfl
    · intro _ hd0
      rw [cumDur_nil, add_zero, if_pos hd0]
      rfl
  | cons p rest ih =>
    rcases p with ⟨c, t⟩
    intro s hctx hrate hnow
    have hcr : c.sampleRate = s.ctxSampleRate := by
      rw [hctx]
      exact hrate (c, t) (List.mem_cons_self _ _)
    have hproj := play_same_rate_proj s c t hcr
    have hctx1 : (Player.play s c t).1.ctxSampleRate = rate0 := by
      rw [hproj.1, hctx]
    have hrate1 : ∀ p ∈ rest, p.1.sampleRate = rate0 := by
      intro q hq
      exact hrate q (List.mem_cons_of_mem _ hq)
    have hnow1 : ∀ p ∈ rest, 0 < p.2 := by
      intro q hq
      exact hnow q (List.mem_cons_of_mem _ hq)
    have ihr := ih (Player.play s c t).1 hctx1 hrate1 hnow1
    have hrun : Player.playRun s ((c, t) :: rest) =
        ((Player.playRun (Player.play s c t).1 rest).1,
          (Player.play s c t).2 ++
            (Player.playRun (Player.play s c t).1 rest).2) := rfl
    constructor
    · intro h0
      have hst := play_same_rate_started s c t hcr h0
      rw [hrun]
      simp only [startCount_append]
      rw [hst.2, ihr.1 (by rw [hst.1]; exact h0)]
      rfl
    · intro h0 hd0
      by_cases hlt : s.currentAudioSequenceDuration +
          (c.data.length : ℚ) / (s.ctxSampleRate : ℚ) <
          Player.MIN_BUFFER_DURATION_BEFORE_START_SEC
      · have hb := play_same_rate_below_threshold s c t hcr h0 hlt
        rw [hrun]
        simp only [startCount_append]
        rw [hb.2]
        have hd1 : (Player.play s c t).1.currentAudioSequenceDuration <
            Player.MIN_BUFFER_DURATION_BEFORE_START_SEC := by
          rw [hproj.2.1]
          exact hlt
        rw [ihr.2 hb.1 hd1, hproj.2.1, cumDur_cons, hctx]
        have hassoc : s.currentAudioSequenceDuration +
            ((c.data.length : ℚ) / (rate0 : ℚ) + Player.cumDur rate0 rest) =
            s.currentAudioSequenceDuration +
              (c.data.length : ℚ) / (rate0 : ℚ) + Player.cumDur rate0 rest := by
          ring
        rw [hassoc]
        simp [Player.startCount, Player.isStartSource]
      · have hb := play_same_rate_crossing s c t hcr h0 hlt
        rw [hrun]
        simp only [startCount_append]
        rw [hb.2]
        have ht : (Player.play s c t).1.currentAudioSequenceStartedAt ≠ 0 := by
          rw [hb.1]
          exact (hnow (c, t) (List.mem_cons_self _ _)).ne'
        rw [ihr.1 ht]
        have hcond : ¬ (s.currentAudioSequenceDuration +
            Player.cumDur rate0 ((c, t) :: rest) <
            Player.MIN_BUFFER_DURATION_BEFORE_START_SEC) := by
          rw [cumDur_cons]
          have hnn := cumDur_nonneg rate0 rest
          rw [hctx] at hlt
          push_neg at hlt ⊢
          calc Player.MIN_BUFFER_DURATION_BEFORE_START_SEC ≤
              s.currentAudioSequenceDuration +
                (c.data.length : ℚ) / (rate0 : ℚ) := hlt
            _ ≤ s.currentAudioSequenceDuration +
                ((c.data.length : ℚ) / (rate0 : ℚ) +
                  Player.cumDur rate0 rest) := by linarith
        rw [if_neg hcond]
        rfl

/-! ## Claim theorems about the playback scheduler -/

/-- Claim C5: for every sequence of play calls since the last reset,
all at the current context rate and with positive clock values, the
output source is started exactly once when the cumulative appended
duration reaches 0.8 seconds, and never while it stays strictly below
0.8 seconds; since the hypotheses are closed under taking prefixes of
the run, the single start happens at the first call that reaches the
threshold and no later call starts the source again. -/
theorem c5_start_threshold (s0 : Player.PlayerState)
    (run : List (Player.Chunk × ℚ)) (hreset : Player.isResetState s0)
    (hrate : ∀ p ∈ run, p.1.sampleRate = s0.ctxSampleRate)
    (hnow : ∀ p ∈ run, 0 < p.2) :
    Player.startCount (Player.playRun s0 run).2 =
      if Player.cumDur s0.ctxSampleRate run <
          Player.MIN_BUFFER_DURATION_BEFORE_START_SEC
      then 0 else 1 := by
  have hd0 : s0.currentAudioSequenceDuration <
      Player.MIN_BUFFER_DURATION_BEFORE_START_SEC := by
    rw [hreset.2]
    norm_num [Player.MIN_BUFFER_DURATION_BEFORE_START_SEC]
  have h := (playRun_startCount_aux s0.ctxSampleRate run s0 rfl hrate hnow).2
    hreset.1 hd0
  rw [h, hreset.2, zero_add]

theorem c5_start_threshold_witness :
    (Player.isResetState Player.initPlayer
      ∧ (∀ p ∈ [((⟨16000, [0, 0, 0]⟩ : Player.Chunk), (5 : ℚ))],
          (Prod.fst p).sampleRate = Player.initPlayer.ctxSampleRate)
      ∧ (∀ p ∈ [((⟨16000, [0, 0, 0]⟩ : Player.Chunk), (5 : ℚ))],
          (0 : ℚ) < Prod.snd p))
    ∧ Player.startCount
        (Player.playRun Player.initPlayer
          [((⟨16000, [0, 0, 0]⟩ : Player.Chunk), (5 : ℚ))]).2 =
      if Player.cumDur Player.initPlayer.ctxSampleRate
            [((⟨16000, [0, 0, 0]⟩ : Player.Chunk), (5 : ℚ))] <
          Player.MIN_BUFFER_DURATION_BEFORE_START_SEC
      then 0 else 1 :=
  ⟨⟨⟨rfl, rfl⟩,
      by intro p hp; rw [List.mem_singleton] at hp; subst hp; rfl,
      by intro p hp; rw [List.mem_singleton] at hp; subst hp; norm_num⟩,
    c5_start_threshold Player.initPlayer _ ⟨rfl, rfl⟩
      (by intro p hp; rw [List.mem_singleton] at hp; subst hp; rfl)
      (by intro p hp; rw [List.mem_singleton] at hp; subst hp; norm_num)⟩

/-- Claim C3, counterexample: a single play call appending more samples
than the 120-second capacity of the buffer leaves the write cursor
beyond the capacity; no reset takes place (the buffer address is
unchanged and the capacity of the appended-to buffer is still the old
one), so the claimed guard does not exist in the code. -/
theorem c3_offset_exceeds_capacity_cex :
    (Player.play Player.initPlayer
        ⟨16000, List.replicate 1920001 0⟩ 5).1.offset = 1920001
    ∧ Player.capacityOf Player.initPlayer = 1920000
    ∧ Player.capacityOf (Player.play Player.initPlayer
        ⟨16000, List.replicate 1920001 0⟩ 5).1 = 1920000
    ∧ (Player.play Player.initPlayer
        ⟨16000, List.replicate 1920001 0⟩ 5).1.audioBufferId =
      Player.initPlayer.audioBufferId := by
  have hrate : (Player.Chunk.mk 16000 (List.replicate 1920001 0)).sampleRate =
      Player.initPlayer.ctxSampleRate := rfl
  have hp := play_same_rate_proj Player.initPlayer
    ⟨16000, List.replicate 1920001 0⟩ 5 hrate
  have h1 : (Player.Chunk.mk 16000 (List.replicate 1920001 0)).data.length =
      1920001 := List.length_replicate _ _
  have hcapfin : (Player.heapGet Player.initPlayer.heap
      Player.initPlayer.audioBufferId).length = 1920000 := by
    norm_num [Player.heapGet, Player.initPlayer, Player.createNewAudioBuffer,
      Player.AUDIO_BUFFER_LENGTH_SEC, Player.INITIAL_SAMPLE_RATE]
  have hcap0 : Player.capacityOf Player.initPlayer = 1920000 :=
    (capacityOf_def Player.initPlayer).trans hcapfin
  have h2 : Player.heapGet (Player.play Player.initPlayer
        ⟨16000, List.replicate 1920001 0⟩ 5).1.heap
        (Player.play Player.initPlayer
          ⟨16000, List.replicate 1920001 0⟩ 5).1.audioBufferId =
      Player.heapGet (Player.writeSamples Player.initPlayer.heap
        Player.initPlayer.audioBufferId Player.initPlayer.offset 0
        (Player.Chunk.mk 16000 (List.replicate 1920001 0)).data)
        Player.initPlayer.audioBufferId := by
    rw [hp.2.2.2.1, hp.2.2.2.2]
  have h3 := writeSamples_length_preserved
    (Player.Chunk.mk 16000 (List.replicate 1920001 0)).data
    Player.initPlayer.heap Player.initPlayer.audioBufferId
    Player.initPlayer.offset 0 Player.initPlayer.audioBufferId
  refine ⟨?_, hcap0, ?_, hp.2.2.2.1⟩
  · refine hp.2.2.1.trans ?_
    rw [h1]
    norm_num [Player.initPlayer]
  · exact (capacityOf_def _).trans
      ((congrArg Player.AudioBufferM.length h2).trans (h3.trans hcapfin))

/-- Claim C3, amended: play performs no capacity check at all; with an
unchanged sample rate the write cursor always advances by the full
chunk length and the scheduler never resets on account of capacity
(the buffer address is preserved), while each individual sample store
beyond the buffer capacity is silently dropped by the buffer. -/
theorem c3_amended_no_capacity_guard (s : Player.PlayerState)
    (c : Player.Chunk) (now : ℚ) (hrate : c.sampleRate = s.ctxSampleRate) :
    (Player.play s c now).1.offset = s.offset + c.data.length
    ∧ (Player.play s c now).1.audioBufferId = s.audioBufferId
    ∧ (∀ (b : Player.AudioBufferM) (i : Nat) (v : Int),
        b.length ≤ i → Player.bufWrite b i v = b) := by
  have hp := play_same_rate_proj s c now hrate
  exact ⟨hp.2.2.1, hp.2.2.2.1, bufWrite_out_of_range⟩

theorem c3_amended_no_capacity_guard_witness :
    ((Player.Chunk.mk 16000 [9]).sampleRate = Player.initPlayer.ctxSampleRate)
    ∧ ((Player.play Player.initPlayer ⟨16000, [9]⟩ 2).1.offset =
        Player.initPlayer.offset + ([9] : List Int).length
      ∧ (Player.play Player.initPlayer ⟨16000, [9]⟩ 2).1.audioBufferId =
        Player.initPlayer.audioBufferId
      ∧ (∀ (b : Player.AudioBufferM) (i : Nat) (v : Int),
          b.length ≤ i → Player.bufWrite b i v = b)) :=
  ⟨rfl, c3_amended_no_capacity_guard Player.initPlayer ⟨16000, [9]⟩ 2 rfl⟩

/-- Claim C2: evaluation of the code on a play call whose chunk sample
rate 44100 differs from the current context rate 16000. The full reset
does happen (a fresh buffer at the new rate is allocated at address 1
and the cursor returns to 0 before advancing by the chunk length), but
the chunk samples are copied into the stale buffer at address 0 that
was captured before the reset and then discarded: the newly created
buffer stays empty, contradicting the claim that the samples land in
the newly created buffer. -/
theorem c2_rate_change_writes_go_to_stale_buffer :
    (Player.play Player.initPlayer ⟨44100, [5, 6, 7]⟩ 100).1.audioBufferId = 1
    ∧ (Player.heapGet (Player.play Player.initPlayer
        ⟨44100, [5, 6, 7]⟩ 100).1.heap 1).writes = []
    ∧ (Player.heapGet (Player.play Player.initPlayer
        ⟨44100, [5, 6, 7]⟩ 100).1.heap 1).sampleRate = 44100
    ∧ (Player.heapGet (Player.play Player.initPlayer
        ⟨44100, [5, 6, 7]⟩ 100).1.heap 0).writes = [(2, 7), (1, 6), (0, 5)]
    ∧ (Player.play Player.initPlayer ⟨44100, [5, 6, 7]⟩ 100).1.offset = 3 := by
  norm_num [Player.play, Player.finishPlay, Player.reset, Player.initPlayer,
    Player.createNewAudioBuffer, Player.writeSamples, Player.heapWrite,
    Player.heapGet, Player.bufWrite, Player.AUDIO_BUFFER_LENGTH_SEC,
    Player.INITIAL_SAMPLE_RATE, Player.MIN_BUFFER_DURATION_BEFORE_START_SEC,
    List.getD_cons_zero, List.getD_cons_succ]

/-! ## Claim theorems about the connection manager -/

/-- Claim C1: evaluation of the onclose handler on a connected client.
The source inverts the wasClean check: an unclean close produces a
silent transition to disconnected with no error-callback invocation,
while a clean close invokes the error callback exactly once; the claim
states the opposite polarity for both cases. -/
theorem c1_onClose_wasClean_inverted :
    (ACE.step ACE.testUrl ACE.sConn (ACE.Event.closeEvt false)).2 =
      [ACE.Action.setStatus ACE.ConnectionStatus.disconnected,
        ACE.Action.setWsNull]
    ∧ ACE.countErrCb
        (ACE.step ACE.testUrl ACE.sConn (ACE.Event.closeEvt false)).2 = 0
    ∧ (ACE.step ACE.testUrl ACE.sConn
        (ACE.Event.closeEvt false)).1.connectionStatus =
      ACE.ConnectionStatus.disconnected
    ∧ ACE.countErrCb
        (ACE.step ACE.testUrl ACE.sConn (ACE.Event.closeEvt true)).2 = 1 := by
  decide

/-- Claim C4: evaluation of the code on runs of channel events. The
first two conjuncts show connect on a fresh client reaching connecting
and then connected on the open event, as claimed. The remaining
conjuncts exhibit a run with exactly one channel error event on which
the registered error callback is invoked twice, not once: the
inverted clean-close branch of onClose also routes into the error
path, so the first session being closed cleanly by the server already
invokes the callback before the failing second connection attempt
invokes it again. -/
theorem c4_error_callback_invoked_twice :
    (ACE.runEvents ACE.testUrl ACE.initialCState
        [ACE.Event.connectCall]).1.connectionStatus =
      ACE.ConnectionStatus.connecting
    ∧ (ACE.runEvents ACE.testUrl ACE.initialCState
        [ACE.Event.connectCall, ACE.Event.openEvt]).1.connectionStatus =
      ACE.ConnectionStatus.connected
    ∧ ACE.c4Run.countP ACE.isErrorEvt = 1
    ∧ ACE.countErrCb
        (ACE.runEvents ACE.testUrl ACE.initialCState ACE.c4Run).2 = 2
    ∧ (ACE.runEvents ACE.testUrl ACE.initialCState
        ACE.c4Run).1.connectionStatus = ACE.ConnectionStatus.disconnected := by
  decide

/-- Claim C8: sendAudioChunk writes nothing to the channel, queues
nothing and merely logs a warning whenever the optional chain over the
socket ref does not report the open state (in particular when the ref
is null), and when the socket is open it emits exactly one binary
frame holding the encoded container; in both cases the call returns a
plain action list, never an error. -/
theorem c8_send_gating (s : ACE.CState) (pcm : List Nat)
    (sampleRate numChannels : Nat) :
    (s.websocket.map ACE.WSock.readyState ≠ some ACE.ReadyState.rsOpen →
      ACE.sendAudioChunk s pcm sampleRate numChannels =
        [ACE.Action.warn "Websocket is not open. Discarding audio chunk"]
      ∧ ∀ f, ACE.Action.send f ∉ ACE.sendAudioChunk s pcm sampleRate numChannels)
    ∧ (s.websocket.map ACE.WSock.readyState = some ACE.ReadyState.rsOpen →
      ACE.sendAudioChunk s pcm sampleRate numChannels =
        [ACE.Action.send (Codec.pcmToWav pcm sampleRate numChannels)]) := by
  constructor
  · intro h
    have he : ACE.sendAudioChunk s pcm sampleRate numChannels =
        [ACE.Action.warn "Websocket is not open. Discarding audio chunk"] := by
      unfold ACE.sendAudioChunk
      rw [if_pos h]
    refine ⟨he, ?_⟩
    intro f hf
    rw [he] at hf
    simp at hf
  · intro h
    unfold ACE.sendAudioChunk
    rw [if_neg (by simp [h])]

theorem c8_send_gating_witness :
    ((ACE.CState.mk none ACE.ConnectionStatus.disconnected).websocket.map
        ACE.WSock.readyState ≠ some ACE.ReadyState.rsOpen
      ∧ (ACE.sendAudioChunk ⟨none, ACE.ConnectionStatus.disconnected⟩
          [1, 2] 16000 1 =
          [ACE.Action.warn "Websocket is not open. Discarding audio chunk"]
        ∧ ∀ f, ACE.Action.send f ∉
          ACE.sendAudioChunk ⟨none, ACE.ConnectionStatus.disconnected⟩
            [1, 2] 16000 1))
    ∧ ((ACE.CState.mk (some ⟨ACE.ReadyState.rsOpen⟩)
          ACE.ConnectionStatus.connected).websocket.map ACE.WSock.readyState =
        some ACE.ReadyState.rsOpen
      ∧ ACE.sendAudioChunk
          ⟨some ⟨ACE.ReadyState.rsOpen⟩, ACE.ConnectionStatus.connected⟩
          [1, 2] 16000 1 =
        [ACE.Action.send (Codec.pcmToWav [1, 2] 16000 1)]) :=
  ⟨⟨by decide,
      (c8_send_gating ⟨none, ACE.ConnectionStatus.disconnected⟩
        [1, 2] 16000 1).1 (by decide)⟩,
    ⟨by decide,
      (c8_send_gating ⟨some ⟨ACE.ReadyState.rsOpen⟩,
          ACE.ConnectionStatus.connected⟩ [1, 2] 16000 1).2 (by decide)⟩⟩

/-- Claim C10: a text frame whose payload is not valid JSON makes the
onmessage handler propagate the JSON.parse exception, so neither the
TTS handler, the ASR handler nor the unrecognized-type warning runs;
a text frame parsing to a value whose type field is neither tts_update
nor asr_update is logged and discarded without an error and without
invoking either handler. -/
theorem c10_onMessage_dispatch :
    (ACE.onMessage (ACE.InMsg.text none) =
      Except.error ACE.jsonParseError)
    ∧ (∀ acts, ACE.onMessage (ACE.InMsg.text none) ≠ Except.ok acts)
    ∧ (∀ j : ACE.JsonVal, j.type? ≠ some "tts_update" →
        j.type? ≠ some "asr_update" →
        ACE.onMessage (ACE.InMsg.text (some j)) =
          Except.ok [ACE.Action.warn "Unrecognized message. Discarded"]) := by
  refine ⟨rfl, ?_, ?_⟩
  · intro acts h
    exact Except.noConfusion h
  · intro j h1 h2
    show (if j.type? = some "tts_update"
        then Except.ok [ACE.Action.callTTS j.tts]
        else if j.type? = some "asr_update"
          then Except.ok [ACE.Action.callASR j.asr]
          else Except.ok [ACE.Action.warn "Unrecognized message. Discarded"]) =
      Except.ok [ACE.Action.warn "Unrecognized message. Discarded"]
    rw [if_neg h1, if_neg h2]

theorem c10_onMessage_dispatch_witness :
    ((ACE.JsonVal.mk (some "unknown_x") none none).type? ≠ some "tts_update"
      ∧ (ACE.JsonVal.mk (some "unknown_x") none none).type? ≠ some "asr_update")
    ∧ ACE.onMessage (ACE.InMsg.text (some ⟨some "unknown_x", none, none⟩)) =
      Except.ok [ACE.Action.warn "Unrecognized message. Discarded"] :=
  ⟨⟨by decide, by decide⟩,
    c10_onMessage_dispatch.2.2 ⟨some "unknown_x", none, none⟩
      (by decide) (by decide)⟩

/-! ## Claim theorems about the capture service -/

/-- Claim C9: a startRecording call in an insecure browsing context
while access is not yet granted never reaches the permission prompt
(no getUserMedia effect occurs), surfaces the descriptive error
exactly once through the error callback, and leaves the capture state
in the error state. -/
theorem c9_insecure_context (env : Mic.MicEnv) (st : Mic.MicHookState)
    (hsec : env.isSecureContext = false)
    (hng : st.mic.micAccessState ≠ Mic.MicAccessState.granted) :
    Mic.MicEffect.getUserMediaCall ∉ (Mic.startRecording env st).2
    ∧ (Mic.startRecording env st).2.countP Mic.isErrorCbM = 1
    ∧ (Mic.startRecording env st).1.mic.micAccessState =
      Mic.MicAccessState.error := by
  have hsr : Mic.startRecording env st =
      (⟨Mic.reducer (Mic.requestAccess env st).1.mic
          Mic.MicrophoneAction.recordingStarted,
        (Mic.requestAccess env st).1.hasAudioCtx⟩,
        (Mic.requestAccess env st).2 ++
          (if (Mic.requestAccess env st).1.hasAudioCtx
            then [Mic.MicEffect.resumeCtx] else [])) := by
    unfold Mic.startRecording
    rw [if_pos hng]
  have hra : Mic.requestAccess env st =
      (⟨Mic.reducer (Mic.reducer st.mic
            Mic.MicrophoneAction.micAccessRequested)
          (Mic.MicrophoneAction.micAccessError Mic.insecureContextMsg),
        st.hasAudioCtx⟩,
        [Mic.MicEffect.logError,
          Mic.MicEffect.errorCallback Mic.insecureContextMsg]) := by
    unfold Mic.requestAccess
    rw [if_pos hsec]
  rw [hsr, hra]
  cases st.hasAudioCtx <;>
    simp [Mic.reducer, Mic.isErrorCbM, List.countP_cons, List.countP_nil]

theorem c9_insecure_context_witness :
    ((Mic.MicEnv.mk false true true).isSecureContext = false
      ∧ (Mic.MicHookState.mk Mic.INITIAL_STATE false).mic.micAccessState ≠
        Mic.MicAccessState.granted)
    ∧ (Mic.MicEffect.getUserMediaCall ∉
        (Mic.startRecording ⟨false, true, true⟩
          ⟨Mic.INITIAL_STATE, false⟩).2
      ∧ (Mic.startRecording ⟨false, true, true⟩
          ⟨Mic.INITIAL_STATE, false⟩).2.countP Mic.isErrorCbM = 1
      ∧ (Mic.startRecording ⟨false, true, true⟩
          ⟨Mic.INITIAL_STATE, false⟩).1.mic.micAccessState =
        Mic.MicAccessState.error) :=
  ⟨⟨rfl, by decide⟩,
    c9_insecure_context ⟨false, true, true⟩ ⟨Mic.INITIAL_STATE, false⟩
      rfl (by decide)⟩
